import Mathlib

/-!
# Verification of the ExcelFusion merge core

Shallow embedding of `src/ExcelFusion/utils.py` (functions `read_file`,
`merge_dataframes`, `get_download_buffer`) over an explicit table model, and
proofs of the specification claims about them.

Modelling conventions:
* A pandas `DataFrame` is a `DF`: an ordered list of column names plus
  row-major data.  Cell values are `Value` (integer, string or null).
* Python exceptions are `PyError`: the code raises `ValueError` (with a
  message), and pandas raises `KeyError` / `IndexError`; fallible code
  returns `Except PyError`.
* The dictionaries `merge_columns` / `selected_columns` are keyed by the
  strings `"df0"`, `"df1"`, ... in the source; since the key set is in
  bijection with the table index, they are modelled as association lists
  keyed by `Nat`.
* A Python `set` of column names is modelled as a `List String`; the
  iteration order of a Python set is unspecified, and the model fixes it to
  insertion order: the selected columns first (duplicates removed), then the
  merge column when it was not selected.
* The external pandas parsers (`pd.read_csv`, `pd.read_excel`) are oracle
  parameters: an `Except String DF` giving either the parsed table or the
  message of the exception they raise.
-/

set_option autoImplicit false

namespace ExcelFusion

/-- A scalar cell value of a table: integer, string, or null (pandas `NaN`).
pandas joins match null keys with null keys, which structural equality on
this type reproduces. -/
inductive Value where
  | int (n : Int)
  | str (s : String)
  | null
  deriving DecidableEq, Repr

/-- A pandas `DataFrame`: ordered column names and row-major data.  Each row
is expected to have one entry per column. -/
structure DF where
  cols : List String
  rows : List (List Value)
  deriving DecidableEq, Repr

/-- The Python exceptions this code can surface. -/
inductive PyError where
  | valueError (msg : String)
  | keyError (key : String)
  | indexError (msg : String)
  deriving DecidableEq, Repr

/-- `true` iff the computation did not raise. -/
def exceptOk {ε α : Type} : Except ε α → Bool
  | .ok _ => true
  | .error _ => false

instance {ε α : Type} [DecidableEq ε] [DecidableEq α] : DecidableEq (Except ε α) :=
  fun a b =>
    match a, b with
    | .ok x, .ok y =>
      if h : x = y then isTrue (by rw [h]) else isFalse (by intro hh; cases hh; exact h rfl)
    | .error x, .error y =>
      if h : x = y then isTrue (by rw [h]) else isFalse (by intro hh; cases hh; exact h rfl)
    | .ok _, .error _ => isFalse (by intro h; cases h)
    | .error _, .ok _ => isFalse (by intro h; cases h)

/-- Python `str.endswith(suffix)`, character-based (the source dispatches on
`uploaded_file.name.endswith(...)`). -/
def pyEndsWith (s suffix : String) : Bool :=
  suffix.data.isSuffixOf s.data

/-- Index of column `c`, `df.cols.findIdx`-style; `none` when absent. -/
def DF.colIdx? (df : DF) (c : String) : Option Nat :=
  df.cols.findIdx? (· == c)

/-- The values of column `c` (pandas `df[c]` as a Series), `none` when the
column is absent (pandas `KeyError`). -/
def DF.getCol? (df : DF) (c : String) : Option (List Value) :=
  (df.colIdx? c).map (fun j => df.rows.map (fun r => r.getD j Value.null))

/-- pandas `df[keep]`: reorder/restrict the columns to `keep`; `KeyError`
(carrying the offending name) when a requested column is absent. -/
def DF.project (df : DF) (keep : List String) : Except String DF :=
  match keep.find? (fun c => decide (c ∉ df.cols)) with
  | some c => .error c
  | none =>
      let idxs := keep.map (fun c => df.cols.findIdx (· == c))
      .ok ⟨keep, df.rows.map (fun r => idxs.map (fun j => r.getD j Value.null))⟩

/-- pandas `df.drop(c, axis=1)`: remove every column labelled `c`;
`KeyError` when none is. -/
def DF.dropCol (df : DF) (c : String) : Except String DF :=
  if c ∈ df.cols then
    let idxs := (df.cols.enum.filter (fun p => p.2 != c)).map (fun p => p.1)
    .ok ⟨df.cols.filter (· != c),
         df.rows.map (fun r => idxs.map (fun j => r.getD j Value.null))⟩
  else .error c

/-- `name.split('.')[0]`: the portion of the label before the first dot
(the first segment of Python's `split('.')` is exactly the characters up to
the first `'.'`). -/
def labelStem (name : String) : String :=
  String.mk (name.data.takeWhile (fun c => c ≠ '.'))

/-- `list(selected_cols | {merge_col})` with the model's fixed iteration
order (see the header comment). -/
def colsToKeep (selected : List String) (mergeCol : String) : List String :=
  if mergeCol ∈ selected then selected.dedup else selected.dedup ++ [mergeCol]

/-- The per-column rename of the filtering loop: every column except the
merge column becomes `"<stem>_<col>"`. -/
def renameCols (df : DF) (stem mergeCol : String) : DF :=
  { df with cols := df.cols.map (fun c => if c = mergeCol then c else stem ++ "_" ++ c) }

/-- One iteration of the filtering loop of `merge_dataframes` (source lines
24-42): keep the selected columns plus the merge column, then rename all
non-key columns with the label stem. -/
def projectAndRename (df : DF) (name mergeCol : String) (selected : List String) :
    Except String DF :=
  match df.project (colsToKeep selected mergeCol) with
  | .error c => .error c
  | .ok p => .ok (renameCols p (labelStem name) mergeCol)

/-- The filtering loop over `enumerate(zip(dfs, df_names))`: per table, look
up its merge column (`KeyError` on a missing `"df<i>"` entry, outside any
`try`), default its selection to the empty set, project and rename.  A
`KeyError` from the projection propagates unwrapped, as in the source. -/
def filterLoop (mc : List (Nat × String)) (sc : List (Nat × List String)) :
    Nat → List (DF × String) → Except PyError (List DF)
  | _, [] => .ok []
  | i, (df, name) :: rest =>
    match mc.lookup i with
    | none => .error (.keyError ("df" ++ toString i))
    | some mergeCol =>
      match projectAndRename df name mergeCol ((sc.lookup i).getD []) with
      | .error c => .error (.keyError c)
      | .ok f =>
        match filterLoop mc sc (i + 1) rest with
        | .error e => .error e
        | .ok fs => .ok (f :: fs)

/-- `len(set(xs) - set(ys))`: the number of distinct values of `xs` that do
not occur in `ys`. -/
def pySetDiffCard (xs ys : List Value) : Nat :=
  (xs.dedup.filter (fun k => decide (k ∉ ys))).length

/-- A row of `n` nulls (pandas `NaN` fill for the unmatched side). -/
def nullRow (n : Nat) : List Value :=
  List.replicate n Value.null

/-- pandas `left.merge(right, left_on=leftOn, right_on=rightOn, how=how)`.
When the key names coincide the result keeps a single key column (at the
left key's position, filled from whichever side the row came from); when
they differ both key columns are kept.  Supported `how` values are
`outer`/`inner`/`left`/`right`; anything else raises.  Duplicate keys
produce a row per matching pair; null keys match null keys.  The model
assumes the non-key column names of the two sides are disjoint (the caller
renames them by source label), so pandas suffixing is not modelled. -/
def pdMerge (L R : DF) (leftOn rightOn how : String) : Except String DF :=
  match L.colIdx? leftOn, R.colIdx? rightOn with
  | none, _ => .error leftOn
  | _, none => .error rightOn
  | some li, some ri =>
    let lkey := fun (l : List Value) => l.getD li Value.null
    let rkey := fun (r : List Value) => r.getD ri Value.null
    let sameKey := leftOn = rightOn
    let rightPart := fun (r : List Value) => if sameKey then r.eraseIdx ri else r
    let rightWidth := if sameKey then R.cols.length - 1 else R.cols.length
    let outCols := L.cols ++ (if sameKey then R.cols.eraseIdx ri else R.cols)
    let combine := fun (l r : List Value) => l ++ rightPart r
    let leftOnly := fun (l : List Value) => l ++ nullRow rightWidth
    let rightOnly := fun (r : List Value) =>
      if sameKey then (nullRow L.cols.length).set li (rkey r) ++ r.eraseIdx ri
      else nullRow L.cols.length ++ r
    let matchesOf := fun (l : List Value) =>
      R.rows.filter (fun r => decide (rkey r = lkey l))
    let leftJoinRows :=
      L.rows.flatMap (fun l =>
        let ms := matchesOf l
        if ms.isEmpty then [leftOnly l] else ms.map (combine l))
    if how = "inner" then
      .ok ⟨outCols, L.rows.flatMap (fun l => (matchesOf l).map (combine l))⟩
    else if how = "left" then
      .ok ⟨outCols, leftJoinRows⟩
    else if how = "right" then
      .ok ⟨outCols,
        R.rows.flatMap (fun r =>
          let ms := L.rows.filter (fun l => decide (lkey l = rkey r))
          if ms.isEmpty then [rightOnly r] else ms.map (fun l => combine l r))⟩
    else if how = "outer" then
      .ok ⟨outCols,
        leftJoinRows ++
          (R.rows.filter (fun r => decide (rkey r ∉ L.rows.map lkey))).map rightOnly⟩
    else .error (how ++ " is not a valid Merge type")

/-- The body of the `try` block of one merge iteration (source lines 55-77):
compute the distinct pre-join key sets and the new/missing counts, merge,
and when the key names differ drop the right key column.  Any failure is a
`String` (the `str(e)` of the underlying exception) for the caller to
wrap. -/
def mergeStep (result df : DF) (leftCol rightCol how : String) :
    Except String (DF × Nat × Nat) :=
  match result.getCol? leftCol with
  | none => .error leftCol
  | some lvals =>
    match df.getCol? rightCol with
    | none => .error rightCol
    | some rvals =>
      let new_rows := pySetDiffCard rvals lvals
      let missing_rows := pySetDiffCard lvals rvals
      match pdMerge result df leftCol rightCol how with
      | .error m => .error m
      | .ok merged =>
        if leftCol = rightCol then .ok (merged, new_rows, missing_rows)
        else
          match merged.dropCol rightCol with
          | .error m => .error m
          | .ok dropped => .ok (dropped, new_rows, missing_rows)

/-- The merge loop `for i, df in enumerate(filtered_dfs[1:], 1)`: look up the
left (`"df0"`) and right (`"df<i>"`) key columns (outside the `try`, so a
missing dictionary entry is an unwrapped `KeyError`), run the step, and wrap
any step failure as `ValueError("Error merging DataFrames: ...")`.  Returns
the final table and the `new_rows_per_file` / `missing_rows_per_file`
association lists. -/
def mergeLoop (mc : List (Nat × String)) (how : String) :
    Nat → DF → List DF → Except PyError (DF × List (Nat × Nat) × List (Nat × Nat))
  | _, result, [] => .ok (result, [], [])
  | i, result, df :: rest =>
    match mc.lookup 0 with
    | none => .error (.keyError "df0")
    | some leftCol =>
      match mc.lookup i with
      | none => .error (.keyError ("df" ++ toString i))
      | some rightCol =>
        match mergeStep result df leftCol rightCol how with
        | .error m => .error (.valueError ("Error merging DataFrames: " ++ m))
        | .ok (result', nr, mr) =>
          match mergeLoop mc how (i + 1) result' rest with
          | .error e => .error e
          | .ok (fin, news, miss) => .ok (fin, (i, nr) :: news, (i, mr) :: miss)

/-- The statistics record returned by `merge_dataframes`. -/
structure MergeStats where
  total_rows_original : Nat
  new_rows_per_file : List (Nat × Nat)
  missing_rows_per_file : List (Nat × Nat)
  total_rows_merged : Nat
  deriving DecidableEq, Repr

/-- `merge_dataframes(dfs, merge_columns, selected_columns, df_names,
merge_type)` (source lines 17-83).  `not dfs or len(dfs) < 2` is equivalent
to `len(dfs) < 2`.  `filtered_dfs[0]` on an empty list is an
`IndexError`. -/
def merge_dataframes (dfs : List DF) (mc : List (Nat × String))
    (sc : List (Nat × List String)) (df_names : List String)
    (merge_type : String) : Except PyError (DF × MergeStats) :=
  if dfs.length < 2 then
    .error (.valueError "At least two DataFrames are required for merging")
  else
    match filterLoop mc sc 0 (dfs.zip df_names) with
    | .error e => .error e
    | .ok [] => .error (.indexError "list index out of range")
    | .ok (f0 :: frest) =>
      match mergeLoop mc merge_type 1 f0 frest with
      | .error e => .error e
      | .ok (fin, news, miss) =>
        .ok (fin,
          { total_rows_original := (dfs.map (fun d => d.rows.length)).sum
            new_rows_per_file := news
            missing_rows_per_file := miss
            total_rows_merged := fin.rows.length })

/-- `read_file(uploaded_file)` (source lines 5-15), with the pandas parsers
as oracles.  The whole body sits in a `try` whose handler re-raises
`ValueError("Error reading file: " + str(e))` — including around the
`ValueError("Unsupported file format")` raised for an unrecognized
extension, which is therefore wrapped the same way as a parse failure. -/
def read_file (name : String) (parse_csv parse_excel : Except String DF) :
    Except PyError DF :=
  let inner : Except String DF :=
    if pyEndsWith name ".csv" then parse_csv
    else if pyEndsWith name ".xls" || pyEndsWith name ".xlsx" then parse_excel
    else .error "Unsupported file format"
  match inner with
  | .ok t => .ok t
  | .error m => .error (.valueError ("Error reading file: " ++ m))

/-- The download artifact: which encoder ran, on which table, and whether a
synthetic row index was included (`index=False` in the source means it never
is). -/
inductive Buffer where
  | csvBytes (df : DF) (index : Bool)
  | excelBytes (df : DF) (index : Bool)
  deriving DecidableEq, Repr

/-- The table a buffer encodes. -/
def Buffer.table : Buffer → DF
  | .csvBytes t _ => t
  | .excelBytes t _ => t

/-- Whether the buffer includes a synthetic row index. -/
def Buffer.withIndex : Buffer → Bool
  | .csvBytes _ b => b
  | .excelBytes _ b => b

/-- Whether the buffer is CSV-encoded (otherwise it is a single-sheet
spreadsheet). -/
def Buffer.isCsv : Buffer → Bool
  | .csvBytes _ _ => true
  | .excelBytes _ _ => false

/-- The spreadsheet MIME type returned by the source. -/
def xlsxMime : String :=
  "application/vnd.openxmlformats-officedocument.spreadsheetml.sheet"

/-- `get_download_buffer(df, file_format)` (source lines 85-97): `'csv'`
goes to CSV; every other format string goes to the Excel branch (the
`else` carries only the comment `# Excel`), always with `index=False`. -/
def get_download_buffer (df : DF) (file_format : String) : Buffer × String :=
  if file_format = "csv" then (.csvBytes df false, "text/csv")
  else (.excelBytes df false, xlsxMime)

end ExcelFusion

namespace ExcelFusion

/-! ## Concrete tables used by the closed theorems -/

/-- Table `A` of the end-to-end scenario: key `id`, columns `id,name`,
rows `[(1,"a"),(2,"b")]`. -/
def tableA : DF := ⟨["id", "name"], [[.int 1, .str "a"], [.int 2, .str "b"]]⟩

/-- Table `B` of the end-to-end scenario: key `id`, columns `id,val`,
rows `[(2,10),(3,20)]`. -/
def tableB : DF := ⟨["id", "val"], [[.int 2, .int 10], [.int 3, .int 20]]⟩

/-! ## Claim theorems -/

/-- Claim C3: merging tables `A` and `B` (all columns selected, outer mode,
key `id`) returns the table with columns `id, A_name, B_val` and rows
`(1,"a",null), (2,"b",10), (3,null,20)`, with statistics `new_rows[1]=1`,
`missing_rows[1]=1`, `total_rows_original=4`, `total_rows_merged=3`. -/
theorem end_to_end_outer_merge :
    merge_dataframes [tableA, tableB] [(0, "id"), (1, "id")]
        [(0, ["id", "name"]), (1, ["id", "val"])] ["A", "B"] "outer"
      = .ok (⟨["id", "A_name", "B_val"],
             [[.int 1, .str "a", .null],
              [.int 2, .str "b", .int 10],
              [.int 3, .null, .int 20]]⟩,
            { total_rows_original := 4
              new_rows_per_file := [(1, 1)]
              missing_rows_per_file := [(1, 1)]
              total_rows_merged := 3 }) := by decide

/-- Claim C7: calling `merge_dataframes` with fewer than two tables raises
`ValueError("At least two DataFrames are required for merging")` before any
projection or join is attempted. -/
theorem insufficient_tables_error (dfs : List DF) (mc : List (Nat × String))
    (sc : List (Nat × List String)) (names : List String) (how : String)
    (h : dfs.length < 2) :
    merge_dataframes dfs mc sc names how
      = .error (.valueError "At least two DataFrames are required for merging") := by
  simp [merge_dataframes, h]

/-- Witness for `insufficient_tables_error` at the one-table input `[A]`. -/
theorem insufficient_tables_error_witness :
    [tableA].length < 2 ∧
    merge_dataframes [tableA] [(0, "id")] [] ["A"] "outer"
      = .error (.valueError "At least two DataFrames are required for merging") :=
  ⟨by decide, insufficient_tables_error [tableA] [(0, "id")] [] ["A"] "outer" (by decide)⟩

/-- Claim C4 (counterexample): for the format argument `"pdf"` — outside
`{csv, spreadsheet}` — `get_download_buffer` does not fail: it produces a
spreadsheet encoding of the table together with the spreadsheet MIME type. -/
theorem download_no_format_error_counterexample :
    get_download_buffer tableA "pdf" = (.excelBytes tableA false, xlsxMime) := by decide

/-- Claim C4 (amended): for every table and every format argument, the
encoder encodes the given table without a synthetic row index, the output is
CSV exactly when the format is `"csv"` (with MIME `text/csv`), and every
other format string — not only `spreadsheet` — is encoded as a single-sheet
spreadsheet with the spreadsheet MIME type; no format is rejected. -/
theorem download_buffer_contract (df : DF) (fmt : String) :
    (get_download_buffer df fmt).1.table = df ∧
    (get_download_buffer df fmt).1.withIndex = false ∧
    (get_download_buffer df fmt).1.isCsv = decide (fmt = "csv") ∧
    (get_download_buffer df fmt).2 = (if fmt = "csv" then "text/csv" else xlsxMime) := by
  by_cases h : fmt = "csv" <;>
    simp [get_download_buffer, h, Buffer.table, Buffer.withIndex, Buffer.isCsv]

/-- Claim C5 (counterexample): an upload with an unrecognized extension and
an upload with a recognized extension whose bytes fail to parse produce the
very same exception value — `ValueError("Error reading file: Unsupported
file format")` — so the two failure kinds are not distinguishable by the
caller. -/
theorem read_file_error_kinds_coincide :
    read_file "data.txt" (Except.ok tableA) (Except.ok tableA)
        = .error (.valueError "Error reading file: Unsupported file format") ∧
    read_file "data.csv" (Except.error "Unsupported file format") (Except.ok tableA)
        = .error (.valueError "Error reading file: Unsupported file format") := by decide

/-- Claim C5 (amended): the loader raises `ValueError` for both failure
kinds, with the same `"Error reading file: "` wrapper: an extension outside
`.csv`/`.xls`/`.xlsx` yields cause `"Unsupported file format"`, and a parse
failure yields the underlying parser's message — the kinds differ only in
the message text, not in the exception type. -/
theorem read_file_error_messages (name : String) (pc pe : Except String DF) :
    (¬ (pyEndsWith name ".csv" = true ∨ pyEndsWith name ".xls" = true ∨
        pyEndsWith name ".xlsx" = true) →
      read_file name pc pe
        = .error (.valueError "Error reading file: Unsupported file format")) ∧
    (∀ m : String, pyEndsWith name ".csv" = true → pc = .error m →
      read_file name pc pe = .error (.valueError ("Error reading file: " ++ m))) ∧
    (∀ m : String, pyEndsWith name ".csv" = false →
      (pyEndsWith name ".xls" = true ∨ pyEndsWith name ".xlsx" = true) → pe = .error m →
      read_file name pc pe = .error (.valueError ("Error reading file: " ++ m))) := by
  refine ⟨?_, ?_, ?_⟩
  · intro h
    push_neg at h
    obtain ⟨h1, h2, h3⟩ := h
    simp [read_file, h1, h2, h3]
  · intro m h hpc
    simp [read_file, h, hpc]
  · intro m h1 h2 hpe
    rcases h2 with h2 | h2 <;> simp [read_file, h1, h2, hpe]

/-- Witness for `read_file_error_messages`: a `.txt` upload and a failing
`.csv` upload, with the resulting wrapped messages. -/
theorem read_file_error_messages_witness :
    read_file "a.txt" (Except.ok tableA) (Except.ok tableA)
        = .error (.valueError "Error reading file: Unsupported file format") ∧
    read_file "a.csv" (Except.error "boom") (Except.ok tableA)
        = .error (.valueError "Error reading file: boom") :=
  ⟨(read_file_error_messages "a.txt" (Except.ok tableA) (Except.ok tableA)).1 (by decide),
   (read_file_error_messages "a.csv" (Except.error "boom") (Except.ok tableA)).2.1
     "boom" (by decide) rfl⟩

/-- Claim C2 (counterexample): for the label `"my.data.csv"` the non-key
column `x` is renamed to `my_x`, not to `my.data_x` as stripping only the
trailing extension would give — the code keeps only the part of the label
before the **first** dot. -/
theorem rename_first_dot_counterexample :
    projectAndRename ⟨["k", "x"], [[.int 1, .str "a"]]⟩ "my.data.csv" "k" ["x"]
      = .ok ⟨["my_x", "k"], [[.str "a", .int 1]]⟩ ∧ "my_x" ≠ "my.data_x" := by decide

/-- Claim C6 (counterexample): when table 1's designated join-key column
(`zzz`) is absent from it, the merge fails during projection with an
unwrapped `KeyError('zzz')`, not with the wrapped
`ValueError("Error merging DataFrames: ...")`. -/
theorem missing_key_raises_key_error :
    merge_dataframes [tableA, ⟨["id", "w"], [[.int 5, .int 6]]⟩]
        [(0, "id"), (1, "zzz")] [] ["A", "B"] "outer"
      = .error (.keyError "zzz") := by decide

/-- Claim C10 (counterexample): with two tables and an **empty** labels
list, the merge does not silently exclude the unlabeled tables — it fails
with `IndexError("list index out of range")` at `filtered_dfs[0]`. -/
theorem empty_labels_index_error :
    merge_dataframes [tableA, tableB] [(0, "id"), (1, "id")] [] [] "outer"
      = .error (.indexError "list index out of range") := by decide

end ExcelFusion

namespace ExcelFusion

/-! ## Helper lemmas -/

/-- A successful projection returns exactly the requested columns. -/
theorem project_ok_cols (df : DF) (keep : List String) (p : DF)
    (h : df.project keep = .ok p) : p.cols = keep := by
  unfold DF.project at h
  cases hf : keep.find? (fun c => decide (c ∉ df.cols)) with
  | some c => rw [hf] at h; cases h
  | none => rw [hf] at h; cases h; rfl

/-- The merge column always belongs to `cols_to_keep`. -/
theorem mergeCol_mem_colsToKeep (selected : List String) (mergeCol : String) :
    mergeCol ∈ colsToKeep selected mergeCol := by
  unfold colsToKeep
  by_cases h : mergeCol ∈ selected <;> simp [h]

/-- Requesting a column absent from the table makes the projection raise. -/
theorem project_err_of_missing (df : DF) (keep : List String) (c : String)
    (hc : c ∈ keep) (hmiss : c ∉ df.cols) :
    ∃ m, df.project keep = .error m := by
  unfold DF.project
  cases hf : keep.find? (fun x => decide (x ∉ df.cols)) with
  | some x => exact ⟨x, rfl⟩
  | none =>
    exfalso
    have hx := List.find?_eq_none.mp hf c hc
    simp at hx
    exact hmiss hx

/-- A step statistic pair recorded by `mergeStep` is exactly the pair of
distinct-key set-difference cardinalities of the pre-join columns. -/
theorem mergeStep_stats (result df : DF) (leftCol rightCol how : String)
    (r : DF × Nat × Nat) (lvals rvals : List Value)
    (h : mergeStep result df leftCol rightCol how = .ok r)
    (hlv : result.getCol? leftCol = some lvals)
    (hrv : df.getCol? rightCol = some rvals) :
    r.2.1 = pySetDiffCard rvals lvals ∧ r.2.2 = pySetDiffCard lvals rvals := by
  simp only [mergeStep, hlv, hrv] at h
  split at h
  · cases h
  · split at h
    · cases h; exact ⟨rfl, rfl⟩
    · split at h
      · cases h
      · cases h; exact ⟨rfl, rfl⟩

/-- Zipping truncates: appending to the longer list does not change the
result when the second list is at most as long as the first part. -/
theorem zip_append_of_le {α β : Type} (l₁ : List α) (e : List α) (l₂ : List β)
    (h : l₂.length ≤ l₁.length) : (l₁ ++ e).zip l₂ = l₁.zip l₂ := by
  induction l₂ generalizing l₁ with
  | nil => simp
  | cons b bs ih =>
    cases l₁ with
    | nil => simp at h
    | cons a as =>
      simp only [List.cons_append, List.zip_cons_cons]
      rw [ih as (Nat.le_of_succ_le_succ h)]

/-- A table in the filtering loop whose looked-up merge column is absent
from it makes the whole loop raise. -/
theorem filterLoop_not_ok (mc : List (Nat × String)) (sc : List (Nat × List String)) :
    ∀ (pairs : List (DF × String)) (start i : Nat) (df : DF) (name c : String),
      pairs[i]? = some (df, name) → mc.lookup (start + i) = some c → c ∉ df.cols →
      exceptOk (filterLoop mc sc start pairs) = false := by
  intro pairs
  induction pairs with
  | nil => intro start i df name c hp; simp at hp
  | cons hd tl ih =>
    intro start i df name c hp hk hm
    obtain ⟨d0, n0⟩ := hd
    cases i with
    | zero =>
      simp at hp
      obtain ⟨h1, h2⟩ := hp
      subst h1
      rw [Nat.add_zero] at hk
      obtain ⟨m, hpm⟩ :=
        project_err_of_missing _ (colsToKeep ((sc.lookup start).getD []) c) c
          (mergeCol_mem_colsToKeep _ _) hm
      simp [filterLoop, hk, projectAndRename, hpm, exceptOk]
    | succ j =>
      simp only [List.getElem?_cons_succ] at hp
      rcases hk0 : mc.lookup start with _ | mc0
      · simp [filterLoop, hk0, exceptOk]
      · rcases hpr : projectAndRename d0 n0 mc0 ((sc.lookup start).getD []) with m | f
        · simp [filterLoop, hk0, hpr, exceptOk]
        · have hk' : mc.lookup (start + 1 + j) = some c := by
            rw [show start + 1 + j = start + (j + 1) by omega]; exact hk
          have hrec := ih (start + 1) j df name c hp hk' hm
          rcases hrl : filterLoop mc sc (start + 1) tl with e | fs
          · simp [filterLoop, hk0, hpr, hrl, exceptOk]
          · rw [hrl] at hrec; simp [exceptOk] at hrec

/-! ## Remaining claim theorems -/

/-- Claim C1: for a merge step consuming table `df` with running result
`result` at index `i`, the recorded statistics are computed from the
pre-join key columns: `new_rows[i]` is the number of distinct values of
`df`'s right-key column absent from the running result's left-key column,
and `missing_rows[i]` the converse, both measured before the join of that
step executes. -/
theorem stats_from_prejoin_key_sets (mc : List (Nat × String)) (how : String)
    (i : Nat) (result df : DF) (rest : List DF) (fin : DF)
    (news miss : List (Nat × Nat)) (leftCol rightCol : String)
    (lvals rvals : List Value)
    (h : mergeLoop mc how i result (df :: rest) = .ok (fin, news, miss))
    (hl : mc.lookup 0 = some leftCol) (hr : mc.lookup i = some rightCol)
    (hlv : result.getCol? leftCol = some lvals)
    (hrv : df.getCol? rightCol = some rvals) :
    news.lookup i = some (pySetDiffCard rvals lvals) ∧
    miss.lookup i = some (pySetDiffCard lvals rvals) := by
  cases hs : mergeStep result df leftCol rightCol how with
  | error m => simp [mergeLoop, hl, hr, hs] at h
  | ok trip =>
    obtain ⟨result', nr, mr⟩ := trip
    cases hrec : mergeLoop mc how (i + 1) result' rest with
    | error e => simp [mergeLoop, hl, hr, hs, hrec] at h
    | ok trip2 =>
      obtain ⟨fin', news', miss'⟩ := trip2
      simp only [mergeLoop, hl, hr, hs, hrec] at h
      obtain ⟨h1, h2, h3⟩ := by
        simpa using h
      subst h2; subst h3
      have hstats := mergeStep_stats result df leftCol rightCol how
        (result', nr, mr) lvals rvals hs hlv hrv
      simp [List.lookup]
      exact hstats

end ExcelFusion

namespace ExcelFusion

/-- Running merge result for the `stats_from_prejoin_key_sets` witness. -/
def dfL : DF := ⟨["id"], [[.int 1], [.int 2]]⟩

/-- Incoming table for the `stats_from_prejoin_key_sets` witness. -/
def dfR : DF := ⟨["id"], [[.int 2], [.int 3]]⟩

/-- Outer-merge of `dfL` and `dfR` on `id`. -/
def dfO : DF := ⟨["id"], [[.int 1], [.int 2], [.int 3]]⟩

/-- Witness for `stats_from_prejoin_key_sets`: one concrete loop step with
keys `{1,2}` against `{2,3}` records `new_rows[1] = 1` and
`missing_rows[1] = 1`. -/
theorem stats_from_prejoin_key_sets_witness :
    mergeLoop [(0, "id"), (1, "id")] "outer" 1 dfL [dfR]
        = .ok (dfO, [(1, 1)], [(1, 1)]) ∧
    ([(1, 1)] : List (Nat × Nat)).lookup 1
        = some (pySetDiffCard [Value.int 2, Value.int 3] [Value.int 1, Value.int 2]) ∧
    ([(1, 1)] : List (Nat × Nat)).lookup 1
        = some (pySetDiffCard [Value.int 1, Value.int 2] [Value.int 2, Value.int 3]) :=
  ⟨by decide,
   (stats_from_prejoin_key_sets [(0, "id"), (1, "id")] "outer" 1 dfL dfR [] dfO
      [(1, 1)] [(1, 1)] "id" "id" [Value.int 1, Value.int 2] [Value.int 2, Value.int 3]
      (by decide) (by decide) (by decide) (by decide) (by decide)).1,
   (stats_from_prejoin_key_sets [(0, "id"), (1, "id")] "outer" 1 dfL dfR [] dfO
      [(1, 1)] [(1, 1)] "id" "id" [Value.int 1, Value.int 2] [Value.int 2, Value.int 3]
      (by decide) (by decide) (by decide) (by decide) (by decide)).2⟩

/-- Claim C2 (amended): every column of a table's projection is renamed to
`"<stem>_<original>"` with the join-key column left untouched, where the
stem is the portion of the display label **before the first dot** (for a
label with a single dot, such as `orders.csv`, this coincides with
stripping the trailing extension; for labels with several dots everything
from the first dot on is removed). -/
theorem projection_rename_rule (df : DF) (name mergeCol : String)
    (selected : List String) (f : DF)
    (h : projectAndRename df name mergeCol selected = .ok f) :
    f.cols = (colsToKeep selected mergeCol).map
      (fun c => if c = mergeCol then c else labelStem name ++ "_" ++ c) := by
  unfold projectAndRename at h
  cases hp : df.project (colsToKeep selected mergeCol) with
  | error c => rw [hp] at h; cases h
  | ok p =>
    rw [hp] at h
    cases h
    have hcols := project_ok_cols df _ p hp
    simp [renameCols, hcols]

/-- Witness for `projection_rename_rule`: label `"orders.csv"` renames the
non-key column `x` to `orders_x` and leaves the key `k` alone. -/
theorem projection_rename_rule_witness :
    projectAndRename ⟨["k", "x"], [[.int 1, .str "a"]]⟩ "orders.csv" "k" ["x"]
        = .ok ⟨["orders_x", "k"], [[.str "a", .int 1]]⟩ ∧
    (⟨["orders_x", "k"], [[.str "a", .int 1]]⟩ : DF).cols
        = (colsToKeep ["x"] "k").map
            (fun c => if c = "k" then c else labelStem "orders.csv" ++ "_" ++ c) :=
  ⟨by decide,
   projection_rename_rule ⟨["k", "x"], [[.int 1, .str "a"]]⟩ "orders.csv" "k" ["x"]
     ⟨["orders_x", "k"], [[.str "a", .int 1]]⟩ (by decide)⟩

/-- Claim C9: a successful projection step always keeps the designated
join-key column under its original name, whatever the caller selected
(including the empty selection). -/
theorem merge_key_survives_projection (df : DF) (name mergeCol : String)
    (selected : List String) (f : DF)
    (h : projectAndRename df name mergeCol selected = .ok f) :
    mergeCol ∈ f.cols := by
  unfold projectAndRename at h
  cases hp : df.project (colsToKeep selected mergeCol) with
  | error c => rw [hp] at h; cases h
  | ok p =>
    rw [hp] at h
    cases h
    have hcols := project_ok_cols df _ p hp
    have hmem : mergeCol ∈ p.cols := by
      rw [hcols]; exact mergeCol_mem_colsToKeep _ _
    simp only [renameCols, List.mem_map]
    exact ⟨mergeCol, hmem, by simp⟩

/-- Witness for `merge_key_survives_projection`: the key `k` survives an
empty (fully deselected) column selection. -/
theorem merge_key_survives_projection_witness :
    projectAndRename ⟨["k", "x"], [[.int 1, .str "a"]]⟩ "t.csv" "k" []
        = .ok ⟨["k"], [[.int 1]]⟩ ∧
    "k" ∈ (⟨["k"], [[.int 1]]⟩ : DF).cols :=
  ⟨by decide,
   merge_key_survives_projection ⟨["k", "x"], [[.int 1, .str "a"]]⟩ "t.csv" "k" []
     ⟨["k"], [[.int 1]]⟩ (by decide)⟩

/-- Claim C8: every successful merge returns statistics whose
`total_rows_original` is the sum of the pre-projection row counts of all
input tables (whatever the merge mode and selections) and whose
`total_rows_merged` is the row count of the returned table. -/
theorem merge_totals (dfs : List DF) (mc : List (Nat × String))
    (sc : List (Nat × List String)) (names : List String) (how : String)
    (t : DF) (s : MergeStats)
    (h : merge_dataframes dfs mc sc names how = .ok (t, s)) :
    s.total_rows_original = (dfs.map (fun d => d.rows.length)).sum ∧
    s.total_rows_merged = t.rows.length := by
  unfold merge_dataframes at h
  split at h
  · cases h
  · split at h
    · cases h
    · cases h
    · split at h
      · cases h
      · cases h
        exact ⟨rfl, rfl⟩

/-- The inner-merge result table for the `merge_totals` witness. -/
def tInner : DF := ⟨["id", "A_name", "B_val"], [[.int 2, .str "b", .int 10]]⟩

/-- The statistics of the `merge_totals` witness run. -/
def sInner : MergeStats := ⟨4, [(1, 1)], [(1, 1)], 1⟩

/-- Witness for `merge_totals`: an inner merge of `A` and `B` has
`total_rows_original = 2 + 2` and `total_rows_merged = 1`. -/
theorem merge_totals_witness :
    merge_dataframes [tableA, tableB] [(0, "id"), (1, "id")]
        [(0, ["id", "name"]), (1, ["id", "val"])] ["A", "B"] "inner"
      = .ok (tInner, sInner) ∧
    sInner.total_rows_original = ([tableA, tableB].map (fun d => d.rows.length)).sum ∧
    sInner.total_rows_merged = tInner.rows.length :=
  ⟨by decide,
   merge_totals [tableA, tableB] [(0, "id"), (1, "id")]
     [(0, ["id", "name"]), (1, ["id", "val"])] ["A", "B"] "inner" tInner sInner (by decide)⟩

/-- Claim C6 (amended): when a referenced join-key column is absent from its
table the merge aborts — no partial table is returned — but the failure is
an unwrapped `KeyError` raised while projecting, outside the merge loop's
`try`, not the wrapped `ValueError("Error merging DataFrames: ...")`. -/
theorem missing_key_aborts_merge (dfs : List DF) (mc : List (Nat × String))
    (sc : List (Nat × List String)) (names : List String) (how : String)
    (i : Nat) (df : DF) (name c : String)
    (hp : (dfs.zip names)[i]? = some (df, name))
    (hk : mc.lookup i = some c) (hm : c ∉ df.cols) :
    exceptOk (merge_dataframes dfs mc sc names how) = false := by
  unfold merge_dataframes
  by_cases hlen : dfs.length < 2
  · simp [hlen, exceptOk]
  · simp only [if_neg hlen]
    have hfl := filterLoop_not_ok mc sc (dfs.zip names) 0 i df name c hp
      (by rw [Nat.zero_add]; exact hk) hm
    rcases hrl : filterLoop mc sc 0 (dfs.zip names) with e | fs
    · simp [exceptOk]
    · rw [hrl] at hfl
      simp [exceptOk] at hfl

/-- Table missing its designated join key, for the C6 witness. -/
def tableC : DF := ⟨["id", "w"], [[.int 5, .int 6]]⟩

/-- Witness for `missing_key_aborts_merge`: joining on the absent column
`zzz` of table 1 yields no merged table. -/
theorem missing_key_aborts_merge_witness :
    ([tableA, tableC].zip ["A", "B"])[1]? = some (tableC, "B") ∧
    ([(0, "id"), (1, "zzz")] : List (Nat × String)).lookup 1 = some "zzz" ∧
    "zzz" ∉ tableC.cols ∧
    exceptOk (merge_dataframes [tableA, tableC] [(0, "id"), (1, "zzz")] [] ["A", "B"]
      "outer") = false :=
  ⟨by decide, by decide, by decide,
   missing_key_aborts_merge [tableA, tableC] [(0, "id"), (1, "zzz")] [] ["A", "B"]
     "outer" 1 tableC "B" "zzz" (by decide) (by decide) (by decide)⟩

/-- Claim C10 (amended): tables beyond the length of a **nonempty** labels
list are excluded from projection and joining and influence the outcome
only through `total_rows_original`: replacing them by any other tables with
the same total row count leaves the whole merge result (table, statistics,
or error) unchanged.  (With an empty labels list the merge instead fails
with `IndexError`.) -/
theorem unlabeled_tables_row_count_only (dfs extra₁ extra₂ : List DF)
    (mc : List (Nat × String)) (sc : List (Nat × List String))
    (names : List String) (how : String)
    (hlen : names.length ≤ dfs.length)
    (hsum : (extra₁.map (fun d => d.rows.length)).sum
          = (extra₂.map (fun d => d.rows.length)).sum)
    (h₁ : 2 ≤ dfs.length + extra₁.length) (h₂ : 2 ≤ dfs.length + extra₂.length) :
    merge_dataframes (dfs ++ extra₁) mc sc names how
      = merge_dataframes (dfs ++ extra₂) mc sc names how := by
  unfold merge_dataframes
  rw [zip_append_of_le dfs extra₁ names hlen, zip_append_of_le dfs extra₂ names hlen]
  have hl1 : ¬ (dfs ++ extra₁).length < 2 := by rw [List.length_append]; omega
  have hl2 : ¬ (dfs ++ extra₂).length < 2 := by rw [List.length_append]; omega
  rw [if_neg hl1, if_neg hl2]
  have hs : (List.map (fun d => d.rows.length) (dfs ++ extra₁)).sum
      = (List.map (fun d => d.rows.length) (dfs ++ extra₂)).sum := by
    simp [hsum]
  rw [hs]

/-- A one-row table unrelated to the others, for the C10 witness. -/
def tableD : DF := ⟨["q"], [[.int 9]]⟩

/-- Another one-row table with different contents, for the C10 witness. -/
def tableE : DF := ⟨["r", "s"], [[.int 7, .int 8]]⟩

/-- Witness for `unlabeled_tables_row_count_only`: swapping the unlabeled
third table between two unrelated one-row tables leaves the merge result
unchanged. -/
theorem unlabeled_tables_row_count_only_witness :
    ["A", "B"].length ≤ [tableA, tableB].length ∧
    ([tableD].map (fun d => d.rows.length)).sum
        = ([tableE].map (fun d => d.rows.length)).sum ∧
    2 ≤ [tableA, tableB].length + [tableD].length ∧
    2 ≤ [tableA, tableB].length + [tableE].length ∧
    merge_dataframes ([tableA, tableB] ++ [tableD]) [(0, "id"), (1, "id")]
        [(0, ["id", "name"]), (1, ["id", "val"])] ["A", "B"] "outer"
      = merge_dataframes ([tableA, tableB] ++ [tableE]) [(0, "id"), (1, "id")]
        [(0, ["id", "name"]), (1, ["id", "val"])] ["A", "B"] "outer" :=
  ⟨by decide, by decide, by decide, by decide,
   unlabeled_tables_row_count_only [tableA, tableB] [tableD] [tableE]
     [(0, "id"), (1, "id")] [(0, ["id", "name"]), (1, ["id", "val"])] ["A", "B"] "outer"
     (by decide) (by decide) (by decide) (by decide)⟩

end ExcelFusion
